import Mathlib

/-!
Verification of the wxDragon C-ABI binding layer (wxdragon-sys).

This file gives a shallow embedding, in Lean 4, of the `extern "C"` wrapper
functions of the repository that the frozen claims talk about, and proves or
refutes each claim against it.

Modelling conventions:
* C strings are lists of UTF-8 bytes (`Str := List Nat`); converting a
  `char*` to `wxString` via `wxString::FromUTF8` and back via `utf8_str()`
  is the identity on the byte list.
* A nullable pointer argument is an `Option` value; `none` is the null
  pointer.  A caller-supplied output buffer is represented by the pair of a
  flag `bufNonNull : Bool` (whether the `char*` is non-null) and its length;
  the bytes a call stores into the buffer are returned as
  `Option (List Nat)`, `none` meaning nothing was written.
* Heap objects reached through opaque pointers (`wxMenu`, `wxConfigBase`,
  `wxArrayString`, ...) are Lean structures holding the state the wrapped
  calls read and write; the wrapper functions become explicit state passing.
-/

namespace WxDragon

/-- UTF-8 byte strings crossing the FFI boundary. -/
abbrev Str := List Nat

/-- Result of a buffer-filling text getter: the C `int` return value and the
bytes written into the caller's buffer (`none` when nothing was written). -/
structure GetStringResult where
  ret : Int
  written : Option (List Nat)
deriving Repr, DecidableEq

/-- Modelled from the spec: `wxd_cpp_utils::copy_wxstring_to_buffer`, whose
defining header (`wxd_utils.h`) is not among the provided sources; only its
callers and their doc comments are.  Per the spec it writes up to
`buffer_len - 1` UTF-8 bytes of the string plus a NUL terminator into the
caller-supplied buffer, writes nothing when the buffer is null or
`buffer_len` is zero, and always returns the required byte length of the
string (excluding the NUL). -/
def copy_wxstring_to_buffer (s : Str) (bufNonNull : Bool) (bufLen : Nat) :
    Nat × Option (List Nat) :=
  if bufNonNull && decide (0 < bufLen) then
    (s.length, some (s.take (bufLen - 1) ++ [0]))
  else
    (s.length, none)

/-- The C ABI value of a returned `bool` (used to compare a `bool` return
against an `int` length the claim expects). -/
def boolToCInt (b : Bool) : Int := if b then 1 else 0

/-! ### array_string.cpp -/

/-- Embeds `wxd_ArrayString_GetCount`: 0 for a null array, else the element
count of the underlying `wxArrayString`. -/
def wxd_ArrayString_GetCount (array : Option (List Str)) : Int :=
  match array with
  | none => 0
  | some a => (a.length : Int)

/-- Embeds `wxd_ArrayString_GetString`: `-1` for a null array or an index
outside `[0, GetCount)`; otherwise copies the string at `index` through
`copy_wxstring_to_buffer` and returns its byte length. -/
def wxd_ArrayString_GetString (array : Option (List Str)) (index : Int)
    (bufNonNull : Bool) (bufLen : Nat) : GetStringResult :=
  match array with
  | none => { ret := -1, written := none }
  | some a =>
    if index < 0 ∨ (a.length : Int) ≤ index then
      { ret := -1, written := none }
    else
      let s := a.getD index.toNat []
      let r := copy_wxstring_to_buffer s bufNonNull bufLen
      { ret := (r.1 : Int), written := r.2 }

/-! ### menu.cpp -/

/-- State of a `wxMenuItem` that the wrapped calls create and read. -/
structure WxMenuItem where
  id : Int
  label : Str
  help : Str
  kind : Int
deriving Repr, DecidableEq

/-- State of a `wxMenu`: its title and appended items. -/
structure WxMenu where
  title : Str
  items : List WxMenuItem
deriving Repr, DecidableEq

/-- Modelled behaviour of `wxMenu::Append(id, text, help, kind)` (wxWidgets):
constructs a new `wxMenuItem` from the arguments, appends it to the menu and
returns it. -/
def wxMenu_Append (m : WxMenu) (id : Int) (text help : Str) (kind : Int) :
    WxMenu × WxMenuItem :=
  let item : WxMenuItem := { id := id, label := text, help := help, kind := kind }
  ({ m with items := m.items ++ [item] }, item)

/-- Null-coalescing of an optional C string, as in
`wxString::FromUTF8(p ? p : "")`. -/
def strOrEmpty (s : Option Str) : Str := s.getD []

/-- Embeds `wxd_Menu_GetMenuItemCount`: 0 for a null menu, else the item
count. -/
def wxd_Menu_GetMenuItemCount (menu : Option WxMenu) : Nat :=
  match menu with
  | none => 0
  | some m => m.items.length

/-- Embeds `wxd_Menu_GetTitle`: `-1` for a null menu, otherwise the buffer
contract applied to the menu title. -/
def wxd_Menu_GetTitle (menu : Option WxMenu) (bufNonNull : Bool) (bufSize : Nat) :
    GetStringResult :=
  match menu with
  | none => { ret := -1, written := none }
  | some m =>
    let r := copy_wxstring_to_buffer m.title bufNonNull bufSize
    { ret := (r.1 : Int), written := r.2 }

/-- Embeds `wxd_Menu_Append`: null menu gives a null return; otherwise the
item and help strings are null-coalesced to `""`, the kind is passed through
`static_cast` (value-preserving) and `wxMenu::Append` is forwarded to.  The
result pairs the updated menu with the created item. -/
def wxd_Menu_Append (menu : Option WxMenu) (id : Int) (item helpString : Option Str)
    (kind : Int) : Option (WxMenu × WxMenuItem) :=
  match menu with
  | none => none
  | some m => some (wxMenu_Append m id (strOrEmpty item) (strOrEmpty helpString) kind)

/-! ### config.cpp -/

/-- State of a `wxConfigBase` (`wxFileConfig`) object: the parts the wrapped
calls read and write.  `entries` and `groups` are the names enumerated by
`GetFirstEntry`/`GetNextEntry`/`GetFirstGroup`/`GetNextGroup` in the current
group, in enumeration order; `values` is the key/value store. -/
structure WxConfig where
  path : Str
  appName : Str
  vendorName : Str
  entries : List Str
  groups : List Str
  values : List (Str × Str)
deriving Repr, DecidableEq

/-- Modelled behaviour of the `wxConfigBase` enumeration step: with cookie
`idx`, yields the `idx`-th name and advances the cookie, or reports
exhaustion leaving the cookie unchanged. -/
def wxConfig_enumStep (names : List Str) (idx : Nat) : Bool × Str × Nat :=
  match names[idx]? with
  | some s => (true, s, idx + 1)
  | none => (false, [], idx)

/-- Modelled behaviour of `wxConfigBase::Write(key, value)`: stores the pair
and reports success. -/
def wxConfig_Write (cfg : WxConfig) (key val : Str) : WxConfig :=
  { cfg with values := (key, val) :: cfg.values.filter (fun kv => kv.1 ≠ key) }

/-- Embeds `wxd_Config_GetPath`: `-1` for a null config, else the buffer
contract applied to the current path. -/
def wxd_Config_GetPath (config : Option WxConfig) (bufNonNull : Bool) (bufLen : Nat) :
    GetStringResult :=
  match config with
  | none => { ret := -1, written := none }
  | some cfg =>
    let r := copy_wxstring_to_buffer cfg.path bufNonNull bufLen
    { ret := (r.1 : Int), written := r.2 }

/-- Embeds `wxd_Config_GetAppName`. -/
def wxd_Config_GetAppName (config : Option WxConfig) (bufNonNull : Bool) (bufLen : Nat) :
    GetStringResult :=
  match config with
  | none => { ret := -1, written := none }
  | some cfg =>
    let r := copy_wxstring_to_buffer cfg.appName bufNonNull bufLen
    { ret := (r.1 : Int), written := r.2 }

/-- Embeds `wxd_Config_WriteString`: false for a null config or key; the
value is null-coalesced to `""` and stored.  Returns the C `bool` and the
resulting config state. -/
def wxd_Config_WriteString (config : Option WxConfig) (key value : Option Str) :
    Bool × Option WxConfig :=
  match config, key with
  | none, _ => (false, none)
  | some cfg, none => (false, some cfg)
  | some cfg, some k => (true, some (wxConfig_Write cfg k (strOrEmpty value)))

/-- Result of a config enumeration getter: the C `bool` return, the bytes
written into the name buffer, and the value stored through the `long* index`
cookie (`none` when the cookie pointer was not written). -/
structure EnumResult where
  ret : Bool
  written : Option (List Nat)
  cookieOut : Option Nat
deriving Repr, DecidableEq

/-- The common body of the four enumeration getters after their null checks
(`wxd_Config_GetFirstEntry` / `GetNextEntry` / `GetFirstGroup` /
`GetNextGroup` are textually identical in the source up to the enumerated
name list and the starting cookie): take one enumeration step, and copy the
name into the buffer only when the step succeeded and the buffer is non-null
with positive length. -/
def wxd_Config_enumGetter (names : List Str) (idx : Nat) (bufNonNull : Bool)
    (bufLen : Nat) : EnumResult :=
  let (result, s, idx') := wxConfig_enumStep names idx
  if result && bufNonNull && decide (0 < bufLen) then
    { ret := result, written := (copy_wxstring_to_buffer s bufNonNull bufLen).2,
      cookieOut := some idx' }
  else
    { ret := result, written := none, cookieOut := some idx' }

/-- Embeds `wxd_Config_GetFirstEntry`: false for a null config or null index
pointer; otherwise restarts the entry enumeration. -/
def wxd_Config_GetFirstEntry (config : Option WxConfig) (bufNonNull : Bool)
    (bufLen : Nat) (index : Option Nat) : EnumResult :=
  match config, index with
  | none, _ => { ret := false, written := none, cookieOut := none }
  | some _, none => { ret := false, written := none, cookieOut := none }
  | some cfg, some _ => wxd_Config_enumGetter cfg.entries 0 bufNonNull bufLen

/-- Embeds `wxd_Config_GetNextEntry` (continues from the caller's cookie). -/
def wxd_Config_GetNextEntry (config : Option WxConfig) (bufNonNull : Bool)
    (bufLen : Nat) (index : Option Nat) : EnumResult :=
  match config, index with
  | none, _ => { ret := false, written := none, cookieOut := none }
  | some _, none => { ret := false, written := none, cookieOut := none }
  | some cfg, some i => wxd_Config_enumGetter cfg.entries i bufNonNull bufLen

/-- Embeds `wxd_Config_GetFirstGroup`. -/
def wxd_Config_GetFirstGroup (config : Option WxConfig) (bufNonNull : Bool)
    (bufLen : Nat) (index : Option Nat) : EnumResult :=
  match config, index with
  | none, _ => { ret := false, written := none, cookieOut := none }
  | some _, none => { ret := false, written := none, cookieOut := none }
  | some cfg, some _ => wxd_Config_enumGetter cfg.groups 0 bufNonNull bufLen

/-- Embeds `wxd_Config_GetNextGroup`. -/
def wxd_Config_GetNextGroup (config : Option WxConfig) (bufNonNull : Bool)
    (bufLen : Nat) (index : Option Nat) : EnumResult :=
  match config, index with
  | none, _ => { ret := false, written := none, cookieOut := none }
  | some _, none => { ret := false, written := none, cookieOut := none }
  | some cfg, some i => wxd_Config_enumGetter cfg.groups i bufNonNull bufLen

/-- Global-config world: the static `wxConfigBase::ms_pConfig` pointer and
the log of config objects passed to `delete`.  Pointers are plain addresses
(`Nat`). -/
structure ConfigWorld where
  global : Option Nat
  freed : List Nat
deriving Repr, DecidableEq

/-- Embeds `wxd_Config_Get(false)` (forwarding to `wxConfigBase::Get(false)`,
which returns the installed global config without creating one). -/
def wxd_Config_Get_false (w : ConfigWorld) : Option Nat := w.global

/-- Embeds `wxd_Config_Destroy`: a null config is a no-op; otherwise, if the
config is the installed global one, the global pointer is cleared first
(`wxConfigBase::Set(nullptr)`), and then the object is deleted. -/
def wxd_Config_Destroy (w : ConfigWorld) (config : Option Nat) : ConfigWorld :=
  match config with
  | none => w
  | some p =>
    let w1 := if w.global = some p then { w with global := none } else w
    { w1 with freed := p :: w1.freed }

/-! ### grid.cpp -/

/-- State of a `wxGrid` relevant to the claims.  Modelled from the spec:
`wxGrid::SetSelectionMode` stores the given `wxGridSelectionModes` value and
`wxGrid::GetSelectionMode` returns it (wxWidgets itself is outside this
repository). -/
structure WxGrid where
  selectionMode : Int
deriving Repr, DecidableEq

/-- Embeds `wxd_Grid_Create`: null for a null parent; otherwise a freshly
constructed `wxGrid` (default selection mode `wxGridSelectCells = 0`). -/
def wxd_Grid_Create (parent : Option Nat) (id : Int) (pos size : Int × Int)
    (style : Int) : Option WxGrid :=
  match parent with
  | none => none
  | some _ =>
    let _ := (id, pos, size, style)
    some { selectionMode := 0 }

/-- Embeds `wxd_Grid_SetSelectionMode`: no-op on a null grid; otherwise the
`int` mode is converted by `static_cast<wxGrid::wxGridSelectionModes>`, which
preserves the value, and stored. -/
def wxd_Grid_SetSelectionMode (grid : Option WxGrid) (selmode : Int) : Option WxGrid :=
  match grid with
  | none => none
  | some g => some { g with selectionMode := selmode }

/-- Embeds `wxd_Grid_GetSelectionMode`: 0 for a null grid; otherwise the
stored mode converted back by `static_cast<int>`, which preserves the
value. -/
def wxd_Grid_GetSelectionMode (grid : Option WxGrid) : Int :=
  match grid with
  | none => 0
  | some g => g.selectionMode

/-- The valid grid selection-mode values (`WXD_GRID_SELECT_CELLS` through
`WXD_GRID_SELECT_NONE`, per `wxd_grid.h`). -/
def validGridSelectionModes : List Int := [0, 1, 2, 3, 4]

/-- The `wxd_IPCFormat` enumeration from `wxd_ipc.h`. -/
inductive WxdIPCFormat where
  | text
  | bitmap
  | metafile
  | unicodetext
  | utf8text
  | privateData
deriving Repr, DecidableEq

/-- The integer value of each `wxd_IPCFormat` constant, as declared in
`wxd_ipc.h`. -/
def WxdIPCFormat.toCInt : WxdIPCFormat → Int
  | .text => 1
  | .bitmap => 2
  | .metafile => 3
  | .unicodetext => 13
  | .utf8text => 14
  | .privateData => 20

/-- The cast `static_cast<wxIPCFormat>` applied to a `wxd_IPCFormat` value: enum
casts in C++ preserve the underlying integer value. -/
def static_cast_to_wxIPCFormat (v : Int) : Int := v

/-- The cast `static_cast<wxd_IPCFormat>` applied back to a `wxIPCFormat` value. -/
def static_cast_to_wxdIPCFormat (v : Int) : Int := v

/-- Decoding an integer back to the `wxd_IPCFormat` constant carrying that
value. -/
def WxdIPCFormat.ofCInt (v : Int) : Option WxdIPCFormat :=
  if v = 1 then some .text
  else if v = 2 then some .bitmap
  else if v = 3 then some .metafile
  else if v = 13 then some .unicodetext
  else if v = 14 then some .utf8text
  else if v = 20 then some .privateData
  else none

/-! ### ipc.cpp: registries of live servers and clients -/

/-- The static registries `g_liveServers` / `g_liveClients` plus the log of
objects that have been `delete`d (most recent first).  Registries are lists
of addresses kept duplicate-free (`std::unordered_set`). -/
structure IPCState where
  servers : List Nat
  clients : List Nat
  destroyedServers : List Nat
  destroyedClients : List Nat
deriving Repr, DecidableEq

/-- Initial state: both registries empty, nothing destroyed. -/
def initIPC : IPCState :=
  { servers := [], clients := [], destroyedServers := [], destroyedClients := [] }

/-- Insertion into `std::unordered_set`: adds the element unless already present. -/
def insertPtr (p : Nat) (l : List Nat) : List Nat := if p ∈ l then l else p :: l

/-- Embeds `wxd_IPCServer_Create`: allocates a server at address `p` and
registers it in `g_liveServers`. -/
def wxd_IPCServer_Create (s : IPCState) (p : Nat) : IPCState :=
  { s with servers := insertPtr p s.servers }

/-- Embeds `wxd_IPCServer_Destroy`: no-op for null; erases from
`g_liveServers` and deletes only when the erase removed something. -/
def wxd_IPCServer_Destroy (s : IPCState) (server : Option Nat) : IPCState :=
  match server with
  | none => s
  | some p =>
    if p ∈ s.servers then
      { s with servers := s.servers.erase p,
               destroyedServers := p :: s.destroyedServers }
    else s

/-- Embeds `wxd_IPCClient_Create`. -/
def wxd_IPCClient_Create (s : IPCState) (p : Nat) : IPCState :=
  { s with clients := insertPtr p s.clients }

/-- Embeds `wxd_IPCClient_Destroy`. -/
def wxd_IPCClient_Destroy (s : IPCState) (client : Option Nat) : IPCState :=
  match client with
  | none => s
  | some p =>
    if p ∈ s.clients then
      { s with clients := s.clients.erase p,
               destroyedClients := p :: s.destroyedClients }
    else s

/-- Embeds `wxd_IPC_CleanupAll`: deletes every registered server and client
and clears both registries. -/
def wxd_IPC_CleanupAll (s : IPCState) : IPCState :=
  { servers := [], clients := [],
    destroyedServers := s.servers ++ s.destroyedServers,
    destroyedClients := s.clients ++ s.destroyedClients }

/-- One call in an interleaving of the five registry-touching entry points.
`create*` records the address the allocator returned. -/
inductive IPCOp where
  | createServer (p : Nat)
  | destroyServer (p : Option Nat)
  | createClient (p : Nat)
  | destroyClient (p : Option Nat)
  | cleanupAll
deriving Repr, DecidableEq

/-- Interpreting one call on the registry state. -/
def IPCState.step (s : IPCState) : IPCOp → IPCState
  | .createServer p => wxd_IPCServer_Create s p
  | .destroyServer p => wxd_IPCServer_Destroy s p
  | .createClient p => wxd_IPCClient_Create s p
  | .destroyClient p => wxd_IPCClient_Destroy s p
  | .cleanupAll => wxd_IPC_CleanupAll s

/-- Interpreting a whole interleaving. -/
def IPCState.run (s : IPCState) (ops : List IPCOp) : IPCState :=
  ops.foldl IPCState.step s

/-- Allocator soundness of an interleaving starting at `s`: `new` never
returns the address of an object that is currently live. -/
def wfFrom (s : IPCState) : List IPCOp → Bool
  | [] => true
  | op :: rest =>
    (match op with
     | .createServer p => decide (p ∉ s.servers)
     | .createClient p => decide (p ∉ s.clients)
     | _ => true) && wfFrom (s.step op) rest

/-- Number of `wxd_IPCServer_Create` calls in the interleaving that returned
address `p`. -/
def createdServers (ops : List IPCOp) (p : Nat) : Nat :=
  ops.countP (fun op => decide (op = .createServer p))

/-- Number of `wxd_IPCClient_Create` calls in the interleaving that returned
address `p`. -/
def createdClients (ops : List IPCOp) (p : Nat) : Nat :=
  ops.countP (fun op => decide (op = .createClient p))

/-- Embeds `wxd_IPCConnection_GetTopic`: returns 0 for a null connection and
0 otherwise as well (`wxConnection` does not expose the topic; the body
ignores the buffer and returns 0). -/
def wxd_IPCConnection_GetTopic (conn : Option Nat) (bufNonNull : Bool)
    (bufSize : Nat) : Nat :=
  match conn with
  | none => 0
  | some _ =>
    let _ := (bufNonNull, bufSize)
    0

/-! ### core/accessible.cpp: the WxdCustomAccessible trampoline

Each override reads one function pointer stored at construction time
(`m_callbacks.X`) together with `m_userData`; the embedding passes those two
values explicitly.  A null function pointer is `none`.  Foreign callbacks are
opaque functions of the arguments the trampoline hands them. -/

/-- Constant `WXD_ACC_OK` from `wxd_accessible.h` (third enumerator). -/
def WXD_ACC_OK : Nat := 2

/-- Constant `WXD_ACC_NOT_IMPLEMENTED` from `wxd_accessible.h` (fourth enumerator;
numerically equal to `wxACC_NOT_IMPLEMENTED`). -/
def WXD_ACC_NOT_IMPLEMENTED : Nat := 3

/-- Embeds `WxdCustomAccessible::GetChildCount`. -/
def WxdCustomAccessible_GetChildCount (userData : Nat) (cb : Option (Nat → Nat)) : Nat :=
  match cb with
  | some f => f userData
  | none => WXD_ACC_NOT_IMPLEMENTED

/-- Embeds `WxdCustomAccessible::GetChild`. -/
def WxdCustomAccessible_GetChild (userData : Nat) (cb : Option (Nat → Int → Nat))
    (childId : Int) : Nat :=
  match cb with
  | some f => f userData childId
  | none => WXD_ACC_NOT_IMPLEMENTED

/-- Embeds `WxdCustomAccessible::GetParent`. -/
def WxdCustomAccessible_GetParent (userData : Nat) (cb : Option (Nat → Nat)) : Nat :=
  match cb with
  | some f => f userData
  | none => WXD_ACC_NOT_IMPLEMENTED

/-- Embeds `WxdCustomAccessible::GetRole`. -/
def WxdCustomAccessible_GetRole (userData : Nat) (cb : Option (Nat → Int → Nat))
    (childId : Int) : Nat :=
  match cb with
  | some f => f userData childId
  | none => WXD_ACC_NOT_IMPLEMENTED

/-- Embeds `WxdCustomAccessible::GetState`. -/
def WxdCustomAccessible_GetState (userData : Nat) (cb : Option (Nat → Int → Nat))
    (childId : Int) : Nat :=
  match cb with
  | some f => f userData childId
  | none => WXD_ACC_NOT_IMPLEMENTED

/-- Shared shape of the six string-returning overrides (`GetName`,
`GetDescription`, `GetHelpText`, `GetKeyboardShortcut`, `GetDefaultAction`,
`GetValue`): the callback fills a stack buffer and returns a status; the
trampoline assigns the wxString out-parameter only when the status is
`WXD_ACC_OK`.  The callback result is its status paired with the buffer
contents it produced. -/
def accStringResult (userData : Nat) (cb : Option (Nat → Int → Nat × Str))
    (childId : Int) : Nat × Option Str :=
  match cb with
  | some f =>
    let r := f userData childId
    (r.1, if r.1 = WXD_ACC_OK then some r.2 else none)
  | none => (WXD_ACC_NOT_IMPLEMENTED, none)

/-- Embeds `WxdCustomAccessible::GetName`. -/
def WxdCustomAccessible_GetName (userData : Nat) (cb : Option (Nat → Int → Nat × Str))
    (childId : Int) : Nat × Option Str :=
  accStringResult userData cb childId

/-- Embeds `WxdCustomAccessible::GetDescription`. -/
def WxdCustomAccessible_GetDescription (userData : Nat)
    (cb : Option (Nat → Int → Nat × Str)) (childId : Int) : Nat × Option Str :=
  accStringResult userData cb childId

/-- Embeds `WxdCustomAccessible::GetHelpText`. -/
def WxdCustomAccessible_GetHelpText (userData : Nat)
    (cb : Option (Nat → Int → Nat × Str)) (childId : Int) : Nat × Option Str :=
  accStringResult userData cb childId

/-- Embeds `WxdCustomAccessible::GetKeyboardShortcut`. -/
def WxdCustomAccessible_GetKeyboardShortcut (userData : Nat)
    (cb : Option (Nat → Int → Nat × Str)) (childId : Int) : Nat × Option Str :=
  accStringResult userData cb childId

/-- Embeds `WxdCustomAccessible::GetDefaultAction`. -/
def WxdCustomAccessible_GetDefaultAction (userData : Nat)
    (cb : Option (Nat → Int → Nat × Str)) (childId : Int) : Nat × Option Str :=
  accStringResult userData cb childId

/-- Embeds `WxdCustomAccessible::GetValue`. -/
def WxdCustomAccessible_GetValue (userData : Nat)
    (cb : Option (Nat → Int → Nat × Str)) (childId : Int) : Nat × Option Str :=
  accStringResult userData cb childId

/-- Embeds `WxdCustomAccessible::Select`. -/
def WxdCustomAccessible_Select (userData : Nat) (cb : Option (Nat → Int → Int → Nat))
    (childId selectFlags : Int) : Nat :=
  match cb with
  | some f => f userData childId selectFlags
  | none => WXD_ACC_NOT_IMPLEMENTED

/-- Embeds `WxdCustomAccessible::GetSelections`. -/
def WxdCustomAccessible_GetSelections (userData : Nat) (cb : Option (Nat → Nat)) : Nat :=
  match cb with
  | some f => f userData
  | none => WXD_ACC_NOT_IMPLEMENTED

/-- Embeds `WxdCustomAccessible::GetFocus`. -/
def WxdCustomAccessible_GetFocus (userData : Nat) (cb : Option (Nat → Nat)) : Nat :=
  match cb with
  | some f => f userData
  | none => WXD_ACC_NOT_IMPLEMENTED

/-- Embeds `WxdCustomAccessible::DoDefaultAction`. -/
def WxdCustomAccessible_DoDefaultAction (userData : Nat)
    (cb : Option (Nat → Int → Nat)) (childId : Int) : Nat :=
  match cb with
  | some f => f userData childId
  | none => WXD_ACC_NOT_IMPLEMENTED

/-- A `wxd_Rect` as produced by the `GetLocation` callback. -/
structure WxdRect where
  x : Int
  y : Int
  width : Int
  height : Int
deriving Repr, DecidableEq

/-- Embeds `WxdCustomAccessible::GetLocation`: the trampoline assigns the
`wxRect` out-parameter only when the callback status is `WXD_ACC_OK`. -/
def WxdCustomAccessible_GetLocation (userData : Nat)
    (cb : Option (Nat → Int → Nat × WxdRect)) (childId : Int) : Nat × Option WxdRect :=
  match cb with
  | some f =>
    let r := f userData childId
    (r.1, if r.1 = WXD_ACC_OK then some r.2 else none)
  | none => (WXD_ACC_NOT_IMPLEMENTED, none)

/-- Embeds `WxdCustomAccessible::HitTest`. -/
def WxdCustomAccessible_HitTest (userData : Nat)
    (cb : Option (Nat → Int × Int → Nat)) (pt : Int × Int) : Nat :=
  match cb with
  | some f => f userData pt
  | none => WXD_ACC_NOT_IMPLEMENTED

/-- Embeds `WxdCustomAccessible::Navigate`. -/
def WxdCustomAccessible_Navigate (userData : Nat)
    (cb : Option (Nat → Int → Int → Nat)) (navDir fromId : Int) : Nat :=
  match cb with
  | some f => f userData navDir fromId
  | none => WXD_ACC_NOT_IMPLEMENTED

/-! ### ipc.cpp: the WxdConnection trampoline -/

/-- Embeds `WxdConnection::OnExecute`: forwards topic (as UTF-8), data
pointer, size and the `static_cast` format to the stored callback; false
when the pointer is null. -/
def WxdConnection_OnExecute (userData : Nat)
    (cb : Option (Nat → Str → Nat → Nat → Int → Bool))
    (topic : Str) (data size : Nat) (format : Int) : Bool :=
  match cb with
  | some f => f userData topic data size (static_cast_to_wxdIPCFormat format)
  | none => false

/-- Embeds `WxdConnection::OnRequest`: returns the callback's data pointer;
nullptr when the pointer is null. -/
def WxdConnection_OnRequest (userData : Nat)
    (cb : Option (Nat → Str → Str → Int → Option Nat))
    (topic item : Str) (format : Int) : Option Nat :=
  match cb with
  | some f => f userData topic item (static_cast_to_wxdIPCFormat format)
  | none => none

/-- Embeds `WxdConnection::OnPoke`. -/
def WxdConnection_OnPoke (userData : Nat)
    (cb : Option (Nat → Str → Str → Nat → Nat → Int → Bool))
    (topic item : Str) (data size : Nat) (format : Int) : Bool :=
  match cb with
  | some f => f userData topic item data size (static_cast_to_wxdIPCFormat format)
  | none => false

/-- Embeds `WxdConnection::OnStartAdvise`. -/
def WxdConnection_OnStartAdvise (userData : Nat)
    (cb : Option (Nat → Str → Str → Bool)) (topic item : Str) : Bool :=
  match cb with
  | some f => f userData topic item
  | none => false

/-- Embeds `WxdConnection::OnStopAdvise`. -/
def WxdConnection_OnStopAdvise (userData : Nat)
    (cb : Option (Nat → Str → Str → Bool)) (topic item : Str) : Bool :=
  match cb with
  | some f => f userData topic item
  | none => false

/-- Embeds `WxdConnection::OnAdvise`. -/
def WxdConnection_OnAdvise (userData : Nat)
    (cb : Option (Nat → Str → Str → Nat → Nat → Int → Bool))
    (topic item : Str) (data size : Nat) (format : Int) : Bool :=
  match cb with
  | some f => f userData topic item data size (static_cast_to_wxdIPCFormat format)
  | none => false

/-- Embeds `WxdConnection::OnDisconnect`: true (allow deletion) when the
pointer is null. -/
def WxdConnection_OnDisconnect (userData : Nat) (cb : Option (Nat → Bool)) : Bool :=
  match cb with
  | some f => f userData
  | none => true

/-! ### bitmaptogglebutton.cpp -/

/-- Outcome of evaluating `new wxBitmapToggleButton(...)`: a constructed
object at a (non-null) address, a thrown `std::exception` carrying a
message, or a thrown value of any other type. -/
inductive CtorOutcome where
  | ok (btn : Nat)
  | throwStd (msg : Str)
  | throwOther
deriving Repr, DecidableEq

/-- Error messages logged by `wxd_BitmapToggleButton_Create`. -/
inductive LogMsg where
  | exceptionCreating (what : Str)
  | unknownException
  | nullUnexpected
deriving Repr, DecidableEq

/-- Embeds `wxd_BitmapToggleButton_Create`: null parent returns null (0);
a `std::exception` or any other exception from the constructor is caught,
logged, and converted to a null return; otherwise the constructed button is
returned.  The returned pointer is 0 for null, the button's address
otherwise; the second component is the list of log messages emitted. -/
def wxd_BitmapToggleButton_Create (parentNonNull : Bool) (ctor : CtorOutcome) :
    Nat × List LogMsg :=
  if !parentNonNull then (0, [])
  else
    match ctor with
    | .throwStd msg => (0, [LogMsg.exceptionCreating msg])
    | .throwOther => (0, [LogMsg.unknownException])
    | .ok btn =>
      if btn = 0 then (0, [LogMsg.nullUnexpected])
      else (btn, [])

/-! ### ipc.cpp: WxdClient and wxd_IPCClient_MakeConnection -/

/-- The nine callback slots a `WxdClient` stores as pending and a
`WxdConnection` stores at construction.  Function pointers and the user-data
pointer are modelled by their addresses (`none` is null). -/
structure IPCCallbacks where
  userData : Option Nat
  onExecute : Option Nat
  onRequest : Option Nat
  onPoke : Option Nat
  onStartAdvise : Option Nat
  onStopAdvise : Option Nat
  onAdvise : Option Nat
  onDisconnect : Option Nat
  freeUserData : Option Nat
deriving Repr, DecidableEq

/-- All nine slots null (the state after `ClearPendingCallbacks`, and the
initial state of a `WxdClient`). -/
def IPCCallbacks.nulls : IPCCallbacks :=
  { userData := none, onExecute := none, onRequest := none, onPoke := none,
    onStartAdvise := none, onStopAdvise := none, onAdvise := none,
    onDisconnect := none, freeUserData := none }

/-- State of a `WxdClient`: its pending-callback slots. -/
structure WxdClientState where
  pending : IPCCallbacks
deriving Repr, DecidableEq

/-- Embeds `WxdClient::SetPendingCallbacks`. -/
def WxdClient_SetPendingCallbacks (_c : WxdClientState) (cbs : IPCCallbacks) :
    WxdClientState :=
  { pending := cbs }

/-- Embeds `WxdClient::ClearPendingCallbacks`. -/
def WxdClient_ClearPendingCallbacks (_c : WxdClientState) : WxdClientState :=
  { pending := IPCCallbacks.nulls }

/-- A `WxdConnection` object as constructed by `OnMakeConnection`: it holds
the callbacks transferred from the client. -/
structure WxdConnectionObj where
  callbacks : IPCCallbacks
deriving Repr, DecidableEq

/-- Embeds `WxdClient::OnMakeConnection`: constructs a `WxdConnection`
carrying the pending callbacks and clears them from the client (ownership
transfer). -/
def WxdClient_OnMakeConnection (c : WxdClientState) : WxdConnectionObj × WxdClientState :=
  ({ callbacks := c.pending }, WxdClient_ClearPendingCallbacks c)

/-- Embeds `wxd_IPCClient_MakeConnection`.  `connectSucceeds` is the
environment's answer to the underlying `wxClient::MakeConnection` transport
attempt; when it succeeds wxWidgets obtains the connection object from
`OnMakeConnection`.  The result is the returned connection, the resulting
client state, and whether `free_user_data(user_data)` was invoked. -/
def wxd_IPCClient_MakeConnection (client : Option WxdClientState)
    (host service topic : Option Str) (cbs : IPCCallbacks)
    (connectSucceeds : Bool) :
    Option WxdConnectionObj × Option WxdClientState × Bool :=
  match client, host, service, topic with
  | some cl, some _, some _, some _ =>
    let cl1 := WxdClient_SetPendingCallbacks cl cbs
    if connectSucceeds then
      let r := WxdClient_OnMakeConnection cl1
      (some r.1, some r.2, false)
    else
      let freed := cbs.userData.isSome && cbs.freeUserData.isSome
      (none, some (WxdClient_ClearPendingCallbacks cl1), freed)
  | _, _, _, _ => (none, client, false)

/-! ## Theorems -/

/-- The spec's buffer contract for an `int`-returning text getter whose
subject string is `s`: the return value is the required byte length; with a
non-null buffer of positive length, at most `bufLen - 1` bytes of the string
are stored followed by a NUL; otherwise nothing is written. -/
def TextContract (s : Str) (bufNonNull : Bool) (bufLen : Nat)
    (r : GetStringResult) : Prop :=
  r.ret = (s.length : Int) ∧
  (bufNonNull = true → 0 < bufLen →
    r.written = some (s.take (bufLen - 1) ++ [0]) ∧
    (s.take (bufLen - 1)).length ≤ bufLen - 1) ∧
  (bufNonNull = false ∨ bufLen = 0 → r.written = none)

theorem copy_wxstring_to_buffer_spec (s : Str) (b : Bool) (len : Nat) :
    (copy_wxstring_to_buffer s b len).1 = s.length ∧
    (b = true → 0 < len →
      (copy_wxstring_to_buffer s b len).2 = some (s.take (len - 1) ++ [0])) ∧
    (b = false ∨ len = 0 → (copy_wxstring_to_buffer s b len).2 = none) := by
  cases b <;> rcases Nat.eq_zero_or_pos len with h | h <;>
    simp [copy_wxstring_to_buffer, h] <;> omega

theorem textContract_of_copy (s : Str) (b : Bool) (len : Nat) :
    TextContract s b len
      { ret := ((copy_wxstring_to_buffer s b len).1 : Int),
        written := (copy_wxstring_to_buffer s b len).2 } := by
  obtain ⟨h1, h2, h3⟩ := copy_wxstring_to_buffer_spec s b len
  refine ⟨by simp [h1], fun hb hl => ⟨by simp [h2 hb hl], ?_⟩, fun h => by simp [h3 h]⟩
  exact le_trans (List.length_take_le _ _) le_rfl

/-- The behaviour the config enumeration getters actually have: a success
flag plus a conditional, truncated buffer copy. -/
def EnumContract (names : List Str) (idx : Nat) (b : Bool) (len : Nat)
    (r : EnumResult) : Prop :=
  r.ret = names[idx]?.isSome ∧
  (∀ s, names[idx]? = some s → b = true → 0 < len →
    r.written = some (s.take (len - 1) ++ [0]) ∧
    (s.take (len - 1)).length ≤ len - 1) ∧
  (names[idx]?.isSome = false ∨ b = false ∨ len = 0 → r.written = none)

theorem enumGetter_contract (names : List Str) (idx : Nat) (b : Bool) (len : Nat) :
    EnumContract names idx b len (wxd_Config_enumGetter names idx b len) := by
  rcases hg : names[idx]? with _ | s <;> cases b <;>
    rcases Nat.eq_zero_or_pos len with h | h <;>
    simp [EnumContract, wxd_Config_enumGetter, wxConfig_enumStep, hg,
      copy_wxstring_to_buffer, h, List.length_take_le] <;>
    omega

/-- C1 (amended): the `int`-returning text getters follow the shared buffer
contract — they return the required UTF-8 byte length and, given a non-null
buffer of positive length, store at most `buffer_len - 1` bytes plus a NUL,
writing nothing otherwise; the config enumeration getters
(`wxd_Config_GetFirstEntry`/`GetNextEntry`/`GetFirstGroup`/`GetNextGroup`)
instead return a boolean success flag and copy the name (with the same
truncation bound) only when an entry or group exists and the buffer is
non-null with positive length — they do not return the required length. -/
theorem wxd_text_getter_buffer_contract (arr : List Str) (i : Int) (m : WxMenu)
    (cfg : WxConfig) (b : Bool) (len : Nat) (cookie : Nat) :
    (0 ≤ i → i < (arr.length : Int) →
      TextContract (arr.getD i.toNat []) b len
        (wxd_ArrayString_GetString (some arr) i b len)) ∧
    TextContract m.title b len (wxd_Menu_GetTitle (some m) b len) ∧
    TextContract cfg.path b len (wxd_Config_GetPath (some cfg) b len) ∧
    TextContract cfg.appName b len (wxd_Config_GetAppName (some cfg) b len) ∧
    EnumContract cfg.entries 0 b len
      (wxd_Config_GetFirstEntry (some cfg) b len (some cookie)) ∧
    EnumContract cfg.entries cookie b len
      (wxd_Config_GetNextEntry (some cfg) b len (some cookie)) ∧
    EnumContract cfg.groups 0 b len
      (wxd_Config_GetFirstGroup (some cfg) b len (some cookie)) ∧
    EnumContract cfg.groups cookie b len
      (wxd_Config_GetNextGroup (some cfg) b len (some cookie)) := by
  refine ⟨?_, ?_, ?_, ?_, ?_, ?_, ?_, ?_⟩
  · intro h0 hlt
    have hcond : ¬(i < 0 ∨ (arr.length : Int) ≤ i) := by omega
    simp only [wxd_ArrayString_GetString, if_neg hcond]
    exact textContract_of_copy (arr.getD i.toNat []) b len
  · exact textContract_of_copy m.title b len
  · exact textContract_of_copy cfg.path b len
  · exact textContract_of_copy cfg.appName b len
  · exact enumGetter_contract cfg.entries 0 b len
  · exact enumGetter_contract cfg.entries cookie b len
  · exact enumGetter_contract cfg.groups 0 b len
  · exact enumGetter_contract cfg.groups cookie b len

theorem wxd_text_getter_buffer_contract_witness :
    (wxd_ArrayString_GetString (some [[104, 105]]) 0 true 4).ret = 2 ∧
    (wxd_ArrayString_GetString (some [[104, 105]]) 0 true 4).written =
      some [104, 105, 0] := by
  obtain ⟨h1, h2, -⟩ :=
    (wxd_text_getter_buffer_contract [[104, 105]] 0 ⟨[], []⟩
      ⟨[], [], [], [], [], []⟩ true 4 0).1 (by decide) (by decide)
  exact ⟨by simpa using h1, by simpa using (h2 rfl (by decide)).1⟩

/-- Concrete config whose current group holds the single entry "abc"
(UTF-8 bytes `[97, 98, 99]`, required length 3). -/
def c1Config : WxConfig :=
  { path := [], appName := [], vendorName := [], entries := [[97, 98, 99]],
    groups := [], values := [] }

/-- C1 counterexample: on a config whose first entry is "abc" (3 bytes),
`wxd_Config_GetFirstEntry` returns the boolean `true` — whose C ABI value is
1 — rather than the required byte length 3 the claim demands of every text
getter. -/
theorem wxd_Config_GetFirstEntry_flag_not_length :
    (wxd_Config_GetFirstEntry (some c1Config) true 16 (some 0)).ret = true ∧
    (([97, 98, 99] : Str).length : Int) = 3 ∧
    boolToCInt (wxd_Config_GetFirstEntry (some c1Config) true 16 (some 0)).ret ≠ 3 := by
  decide

/-- C10: `wxd_ArrayString_GetString` is bounds-safe — a null array, a
negative index, or an index at or beyond `wxd_ArrayString_GetCount` yields
`-1` with nothing written; only a valid in-range index copies the string
(respecting the buffer bound) and returns its byte length. -/
theorem wxd_ArrayString_GetString_bounds (array : Option (List Str)) (index : Int)
    (b : Bool) (len : Nat) :
    ((array = none ∨ index < 0 ∨ wxd_ArrayString_GetCount array ≤ index) →
      wxd_ArrayString_GetString array index b len = { ret := -1, written := none }) ∧
    (∀ a, array = some a → 0 ≤ index → index < wxd_ArrayString_GetCount array →
      (wxd_ArrayString_GetString array index b len).ret =
        ((a.getD index.toNat []).length : Int) ∧
      (b = true → 0 < len →
        (wxd_ArrayString_GetString array index b len).written =
          some ((a.getD index.toNat []).take (len - 1) ++ [0])) ∧
      (b = false ∨ len = 0 →
        (wxd_ArrayString_GetString array index b len).written = none)) := by
  constructor
  · intro h
    rcases array with _ | a
    · rfl
    · have hcond : index < 0 ∨ (a.length : Int) ≤ index := by
        rcases h with h | h | h
        · exact absurd h (by simp)
        · exact Or.inl h
        · exact Or.inr (by simpa [wxd_ArrayString_GetCount] using h)
      simp only [wxd_ArrayString_GetString, if_pos hcond]
  · intro a ha h0 hlt
    subst ha
    simp only [wxd_ArrayString_GetCount] at hlt
    have hcond : ¬(index < 0 ∨ (a.length : Int) ≤ index) := by omega
    obtain ⟨h1, h2, h3⟩ := copy_wxstring_to_buffer_spec (a.getD index.toNat []) b len
    refine ⟨?_, fun hb hl => ?_, fun hz => ?_⟩ <;>
      simp only [wxd_ArrayString_GetString, if_neg hcond]
    · simpa using h1
    · simpa using h2 hb hl
    · simpa using h3 hz

theorem wxd_ArrayString_GetString_bounds_witness :
    wxd_ArrayString_GetString (some [[104, 105]]) 5 true 8 =
      { ret := -1, written := none } ∧
    (wxd_ArrayString_GetString (some [[104, 105]]) 0 true 8).ret = 2 := by
  refine ⟨(wxd_ArrayString_GetString_bounds (some [[104, 105]]) 5 true 8).1
    (by decide), ?_⟩
  simpa using
    ((wxd_ArrayString_GetString_bounds (some [[104, 105]]) 0 true 8).2
      [[104, 105]] rfl (by decide) (by decide)).1

/-- C2 (amended): the cited error channels hold — `wxd_Grid_Create` with a
null parent returns null, `wxd_Config_WriteString` with a null config or a
null key returns false, and `wxd_Config_GetPath` / `wxd_Menu_GetTitle` with
a null object return `-1` — but not every exported function reports failure
through one of those three channels: `wxd_IPCConnection_GetTopic`, an
integer-returning string operation, reports a null connection by returning
0. -/
theorem wxd_error_channel_examples (id style : Int) (pos size : Int × Int)
    (k v : Option Str) (cfg : WxConfig) (b : Bool) (len : Nat) :
    wxd_Grid_Create none id pos size style = none ∧
    (wxd_Config_WriteString none k v).1 = false ∧
    (wxd_Config_WriteString (some cfg) none v).1 = false ∧
    (wxd_Config_GetPath none b len).ret = -1 ∧
    (wxd_Menu_GetTitle none b len).ret = -1 ∧
    wxd_IPCConnection_GetTopic none b len = 0 :=
  ⟨rfl, rfl, rfl, rfl, rfl, rfl⟩

/-- C2 counterexample: `wxd_IPCConnection_GetTopic` is an integer-returning
string operation, and a null connection is a failure caused by a null
required pointer, yet the function returns 0 — not the sentinel `-1` the
claim requires of every exported function in that category. -/
theorem wxd_IPCConnection_GetTopic_zero_not_minus_one :
    wxd_IPCConnection_GetTopic none true 16 = 0 ∧
    ((wxd_IPCConnection_GetTopic none true 16 : Int) = -1 → False) := by
  decide

/-- C5: `wxd_BitmapToggleButton_Create` converts a `std::exception` and any
other exception from the `wxBitmapToggleButton` constructor into a null
(0) return after logging an error message, returns null without logging for
a null parent, and returns the constructed button's non-null pointer on
success. -/
theorem wxd_BitmapToggleButton_Create_spec (msg : Str) (p : Nat)
    (ctor : CtorOutcome) :
    wxd_BitmapToggleButton_Create true (.throwStd msg) =
      (0, [LogMsg.exceptionCreating msg]) ∧
    wxd_BitmapToggleButton_Create true .throwOther =
      (0, [LogMsg.unknownException]) ∧
    wxd_BitmapToggleButton_Create false ctor = (0, []) ∧
    (p ≠ 0 → wxd_BitmapToggleButton_Create true (.ok p) = (p, [])) := by
  refine ⟨rfl, rfl, rfl, fun hp => ?_⟩
  simp [wxd_BitmapToggleButton_Create, hp]

theorem wxd_BitmapToggleButton_Create_spec_witness :
    wxd_BitmapToggleButton_Create true (.ok 7) = (7, []) :=
  (wxd_BitmapToggleButton_Create_spec [] 7 .throwOther).2.2.2 (by decide)

/-- C6: the enum translations are value-preserving in both directions — for
every valid selection-mode value, `wxd_Grid_SetSelectionMode` followed by
`wxd_Grid_GetSelectionMode` on a non-null grid returns the same value, a
`wxd_IPCFormat` value cast to `wxIPCFormat` and back is unchanged, and the
`wxd_IPCFormat` value assignment is a 1:1 identity (decoding inverts
encoding, so distinct constants have distinct values). -/
theorem wxd_enum_translation_roundtrip (g : WxGrid) (m : Int) (f f' : WxdIPCFormat) :
    (m ∈ validGridSelectionModes →
      wxd_Grid_GetSelectionMode (wxd_Grid_SetSelectionMode (some g) m) = m) ∧
    static_cast_to_wxdIPCFormat (static_cast_to_wxIPCFormat f.toCInt) = f.toCInt ∧
    WxdIPCFormat.ofCInt f.toCInt = some f ∧
    (f.toCInt = f'.toCInt → f = f') := by
  refine ⟨fun _ => rfl, rfl, by cases f <;> rfl, fun h => ?_⟩
  cases f <;> cases f' <;> first | rfl | exact absurd h (by decide)

theorem wxd_enum_translation_roundtrip_witness :
    wxd_Grid_GetSelectionMode
      (wxd_Grid_SetSelectionMode (some { selectionMode := 0 }) 3) = 3 ∧
    WxdIPCFormat.ofCInt WxdIPCFormat.utf8text.toCInt = some WxdIPCFormat.utf8text := by
  refine ⟨(wxd_enum_translation_roundtrip { selectionMode := 0 } 3
    WxdIPCFormat.utf8text WxdIPCFormat.utf8text).1 (by decide), ?_⟩
  exact (wxd_enum_translation_roundtrip { selectionMode := 0 } 3
    WxdIPCFormat.utf8text WxdIPCFormat.utf8text).2.2.1

/-- C7: `wxd_Menu_Append` returns null exactly for a null menu; for a
non-null menu it forwards to `wxMenu::Append` with null item/help strings
coalesced to the empty string and the kind value passed through, returns the
created menu item, and the menu's item count grows by one. -/
theorem wxd_Menu_Append_spec (menu : Option WxMenu) (id : Int)
    (item helpString : Option Str) (kind : Int) :
    ((wxd_Menu_Append menu id item helpString kind).isSome ↔ menu.isSome) ∧
    (∀ m, menu = some m →
      wxd_Menu_Append menu id item helpString kind =
        some ({ m with items := m.items ++
                 [{ id := id, label := strOrEmpty item,
                    help := strOrEmpty helpString, kind := kind }] },
              { id := id, label := strOrEmpty item,
                help := strOrEmpty helpString, kind := kind }) ∧
      ∀ m' it, wxd_Menu_Append menu id item helpString kind = some (m', it) →
        wxd_Menu_GetMenuItemCount (some m') =
          wxd_Menu_GetMenuItemCount (some m) + 1) := by
  constructor
  · cases menu <;> simp [wxd_Menu_Append]
  · rintro m rfl
    refine ⟨rfl, fun m' it h => ?_⟩
    simp only [wxd_Menu_Append, wxMenu_Append, Option.some.injEq, Prod.mk.injEq] at h
    obtain ⟨hm, -⟩ := h
    simp [wxd_Menu_GetMenuItemCount, ← hm]

theorem wxd_Menu_Append_spec_witness :
    wxd_Menu_GetMenuItemCount
      ((wxd_Menu_Append (some ⟨[], []⟩) 5 none none 0).map Prod.fst |>.getD ⟨[], []⟩
        |> some) = 1 := by
  have h := (wxd_Menu_Append_spec (some (⟨[], []⟩ : WxMenu)) 5 none none 0).2
    ⟨[], []⟩ rfl
  simpa using h.2 _ _ h.1

/-- C8: `wxd_Config_Destroy` keeps the global config pointer valid — it is a
no-op on null; destroying the installed global config clears the global
pointer before deletion, so a later `wxd_Config_Get(false)` returns null and
never the freed pointer; destroying a non-global config leaves the global
pointer unchanged. -/
theorem wxd_Config_Destroy_global_safe (w : ConfigWorld) (p : Nat) :
    wxd_Config_Destroy w none = w ∧
    (w.global = some p → (wxd_Config_Destroy w (some p)).global = none) ∧
    (w.global ≠ some p → (wxd_Config_Destroy w (some p)).global = w.global) ∧
    wxd_Config_Get_false (wxd_Config_Destroy w (some p)) ≠ some p ∧
    p ∈ (wxd_Config_Destroy w (some p)).freed := by
  by_cases h : w.global = some p <;>
    simp [wxd_Config_Destroy, wxd_Config_Get_false, h]

theorem wxd_Config_Destroy_global_safe_witness :
    (wxd_Config_Destroy { global := some 4, freed := [] } (some 4)).global = none ∧
    (wxd_Config_Destroy { global := some 4, freed := [] } (some 9)).global = some 4 := by
  refine ⟨(wxd_Config_Destroy_global_safe { global := some 4, freed := [] } 4).2.1
    (by decide), ?_⟩
  have h := (wxd_Config_Destroy_global_safe { global := some 4, freed := [] } 9).2.2.1
    (by decide)
  simpa using h

/-- C9: `wxd_IPCClient_MakeConnection` is state-restoring on failure — any
null required argument returns null without touching the client; a failed
transport attempt frees the user data exactly when both `user_data` and
`free_user_data` are non-null, clears the pending callbacks and returns
null; a successful attempt hands the pending callbacks to the new connection
and clears them from the client. -/
theorem wxd_IPCClient_MakeConnection_spec (cl : WxdClientState)
    (host service topic : Option Str) (cbs : IPCCallbacks) (ok : Bool) :
    (∀ client : Option WxdClientState,
      client = none ∨ host = none ∨ service = none ∨ topic = none →
      wxd_IPCClient_MakeConnection client host service topic cbs ok =
        (none, client, false)) ∧
    (host.isSome → service.isSome → topic.isSome →
      wxd_IPCClient_MakeConnection (some cl) host service topic cbs false =
        (none, some { pending := IPCCallbacks.nulls },
         cbs.userData.isSome && cbs.freeUserData.isSome)) ∧
    (host.isSome → service.isSome → topic.isSome →
      wxd_IPCClient_MakeConnection (some cl) host service topic cbs true =
        (some { callbacks := cbs }, some { pending := IPCCallbacks.nulls },
         false)) := by
  refine ⟨fun client h => ?_, fun hh hs ht => ?_, fun hh hs ht => ?_⟩
  · rcases client with _ | c <;> rcases host with _ | h1 <;>
      rcases service with _ | s1 <;> rcases topic with _ | t1 <;>
      simp_all [wxd_IPCClient_MakeConnection]
  · rcases host with _ | h1
    · exact absurd hh (by simp)
    · rcases service with _ | s1
      · exact absurd hs (by simp)
      · rcases topic with _ | t1
        · exact absurd ht (by simp)
        · simp [wxd_IPCClient_MakeConnection, WxdClient_SetPendingCallbacks,
            WxdClient_ClearPendingCallbacks]
  · rcases host with _ | h1
    · exact absurd hh (by simp)
    · rcases service with _ | s1
      · exact absurd hs (by simp)
      · rcases topic with _ | t1
        · exact absurd ht (by simp)
        · simp [wxd_IPCClient_MakeConnection, WxdClient_SetPendingCallbacks,
            WxdClient_OnMakeConnection, WxdClient_ClearPendingCallbacks]

theorem wxd_IPCClient_MakeConnection_spec_witness :
    wxd_IPCClient_MakeConnection (some { pending := IPCCallbacks.nulls })
      (some [104]) (some [115]) (some [116])
      { IPCCallbacks.nulls with userData := some 1, freeUserData := some 2 }
      false =
      (none, some { pending := IPCCallbacks.nulls }, true) := by
  simpa using
    (wxd_IPCClient_MakeConnection_spec { pending := IPCCallbacks.nulls }
      (some [104]) (some [115]) (some [116])
      { IPCCallbacks.nulls with userData := some 1, freeUserData := some 2 }
      false).2.1 (by decide) (by decide) (by decide)

/-- C4: every overridden virtual method of the trampoline classes invokes
the foreign function pointer stored at construction time and returns its
result when that pointer is non-null; when it is null it returns the fixed
default without side effects — `wxACC_NOT_IMPLEMENTED` for every
`WxdCustomAccessible` method (with no out-parameter write), false for
`WxdConnection::OnExecute/OnPoke/OnStartAdvise/OnStopAdvise/OnAdvise`,
nullptr for `OnRequest`, and true for `OnDisconnect`. -/
theorem trampoline_dispatch_spec :
    (∀ ud, WxdCustomAccessible_GetChildCount ud none = WXD_ACC_NOT_IMPLEMENTED) ∧
    (∀ ud f, WxdCustomAccessible_GetChildCount ud (some f) = f ud) ∧
    (∀ ud cid, WxdCustomAccessible_GetChild ud none cid = WXD_ACC_NOT_IMPLEMENTED) ∧
    (∀ ud f cid, WxdCustomAccessible_GetChild ud (some f) cid = f ud cid) ∧
    (∀ ud, WxdCustomAccessible_GetParent ud none = WXD_ACC_NOT_IMPLEMENTED) ∧
    (∀ ud f, WxdCustomAccessible_GetParent ud (some f) = f ud) ∧
    (∀ ud cid, WxdCustomAccessible_GetRole ud none cid = WXD_ACC_NOT_IMPLEMENTED) ∧
    (∀ ud f cid, WxdCustomAccessible_GetRole ud (some f) cid = f ud cid) ∧
    (∀ ud cid, WxdCustomAccessible_GetState ud none cid = WXD_ACC_NOT_IMPLEMENTED) ∧
    (∀ ud f cid, WxdCustomAccessible_GetState ud (some f) cid = f ud cid) ∧
    (∀ ud cid, WxdCustomAccessible_GetName ud none cid =
      (WXD_ACC_NOT_IMPLEMENTED, none)) ∧
    (∀ ud f cid, (WxdCustomAccessible_GetName ud (some f) cid).1 = (f ud cid).1) ∧
    (∀ ud cid, WxdCustomAccessible_GetDescription ud none cid =
      (WXD_ACC_NOT_IMPLEMENTED, none)) ∧
    (∀ ud f cid, (WxdCustomAccessible_GetDescription ud (some f) cid).1 =
      (f ud cid).1) ∧
    (∀ ud cid, WxdCustomAccessible_GetHelpText ud none cid =
      (WXD_ACC_NOT_IMPLEMENTED, none)) ∧
    (∀ ud f cid, (WxdCustomAccessible_GetHelpText ud (some f) cid).1 =
      (f ud cid).1) ∧
    (∀ ud cid, WxdCustomAccessible_GetKeyboardShortcut ud none cid =
      (WXD_ACC_NOT_IMPLEMENTED, none)) ∧
    (∀ ud f cid, (WxdCustomAccessible_GetKeyboardShortcut ud (some f) cid).1 =
      (f ud cid).1) ∧
    (∀ ud cid, WxdCustomAccessible_GetDefaultAction ud none cid =
      (WXD_ACC_NOT_IMPLEMENTED, none)) ∧
    (∀ ud f cid, (WxdCustomAccessible_GetDefaultAction ud (some f) cid).1 =
      (f ud cid).1) ∧
    (∀ ud cid, WxdCustomAccessible_GetValue ud none cid =
      (WXD_ACC_NOT_IMPLEMENTED, none)) ∧
    (∀ ud f cid, (WxdCustomAccessible_GetValue ud (some f) cid).1 = (f ud cid).1) ∧
    (∀ ud cid flags, WxdCustomAccessible_Select ud none cid flags =
      WXD_ACC_NOT_IMPLEMENTED) ∧
    (∀ ud f cid flags, WxdCustomAccessible_Select ud (some f) cid flags =
      f ud cid flags) ∧
    (∀ ud, WxdCustomAccessible_GetSelections ud none = WXD_ACC_NOT_IMPLEMENTED) ∧
    (∀ ud f, WxdCustomAccessible_GetSelections ud (some f) = f ud) ∧
    (∀ ud, WxdCustomAccessible_GetFocus ud none = WXD_ACC_NOT_IMPLEMENTED) ∧
    (∀ ud f, WxdCustomAccessible_GetFocus ud (some f) = f ud) ∧
    (∀ ud cid, WxdCustomAccessible_DoDefaultAction ud none cid =
      WXD_ACC_NOT_IMPLEMENTED) ∧
    (∀ ud f cid, WxdCustomAccessible_DoDefaultAction ud (some f) cid = f ud cid) ∧
    (∀ ud cid, WxdCustomAccessible_GetLocation ud none cid =
      (WXD_ACC_NOT_IMPLEMENTED, none)) ∧
    (∀ ud f cid, (WxdCustomAccessible_GetLocation ud (some f) cid).1 =
      (f ud cid).1) ∧
    (∀ ud pt, WxdCustomAccessible_HitTest ud none pt = WXD_ACC_NOT_IMPLEMENTED) ∧
    (∀ ud f pt, WxdCustomAccessible_HitTest ud (some f) pt = f ud pt) ∧
    (∀ ud nd fid, WxdCustomAccessible_Navigate ud none nd fid =
      WXD_ACC_NOT_IMPLEMENTED) ∧
    (∀ ud f nd fid, WxdCustomAccessible_Navigate ud (some f) nd fid = f ud nd fid) ∧
    (∀ ud t d sz fmt, WxdConnection_OnExecute ud none t d sz fmt = false) ∧
    (∀ ud f t d sz fmt, WxdConnection_OnExecute ud (some f) t d sz fmt =
      f ud t d sz fmt) ∧
    (∀ ud t it fmt, WxdConnection_OnRequest ud none t it fmt = none) ∧
    (∀ ud f t it fmt, WxdConnection_OnRequest ud (some f) t it fmt =
      f ud t it fmt) ∧
    (∀ ud t it d sz fmt, WxdConnection_OnPoke ud none t it d sz fmt = false) ∧
    (∀ ud f t it d sz fmt, WxdConnection_OnPoke ud (some f) t it d sz fmt =
      f ud t it d sz fmt) ∧
    (∀ ud t it, WxdConnection_OnStartAdvise ud none t it = false) ∧
    (∀ ud f t it, WxdConnection_OnStartAdvise ud (some f) t it = f ud t it) ∧
    (∀ ud t it, WxdConnection_OnStopAdvise ud none t it = false) ∧
    (∀ ud f t it, WxdConnection_OnStopAdvise ud (some f) t it = f ud t it) ∧
    (∀ ud t it d sz fmt, WxdConnection_OnAdvise ud none t it d sz fmt = false) ∧
    (∀ ud f t it d sz fmt, WxdConnection_OnAdvise ud (some f) t it d sz fmt =
      f ud t it d sz fmt) ∧
    (∀ ud, WxdConnection_OnDisconnect ud none = true) ∧
    (∀ ud f, WxdConnection_OnDisconnect ud (some f) = f ud) := by
  repeat' apply And.intro
  all_goals intros
  all_goals rfl

theorem insertPtr_nodup (p : Nat) (l : List Nat) (h : l.Nodup) :
    (insertPtr p l).Nodup := by
  by_cases hm : p ∈ l
  · simpa [insertPtr, hm] using h
  · simp [insertPtr, hm, List.nodup_cons, h]

theorem count_insertPtr (p q : Nat) (l : List Nat) (h : q ∉ l) :
    (insertPtr q l).count p = l.count p + (if p = q then 1 else 0) := by
  simp only [insertPtr, if_neg h, List.count_cons]
  by_cases hpq : p = q
  · subst hpq; simp
  · simp [hpq, Ne.symm hpq]

theorem step_serverBalance (s : IPCState) (op : IPCOp) (p : Nat)
    (hnd : s.servers.Nodup)
    (hwf : ∀ q, op = .createServer q → q ∉ s.servers) :
    (s.step op).servers.count p + (s.step op).destroyedServers.count p =
      s.servers.count p + s.destroyedServers.count p +
        (if op = .createServer p then 1 else 0) := by
  cases op with
  | createServer q =>
    have hq := hwf q rfl
    simp only [IPCState.step, wxd_IPCServer_Create]
    rw [count_insertPtr p q _ hq]
    by_cases hpq : p = q
    · subst hpq; simp; omega
    · simp [hpq, Ne.symm hpq]
  | destroyServer oq =>
    rcases oq with _ | q
    · simp [IPCState.step, wxd_IPCServer_Destroy]
    · simp only [IPCState.step, wxd_IPCServer_Destroy]
      by_cases hq : q ∈ s.servers
      · simp only [if_pos hq]
        by_cases hpq : p = q
        · subst hpq
          have h1 : s.servers.count p = 1 := List.count_eq_one_of_mem hnd hq
          simp [List.count_erase_self, h1, List.count_cons_self]
          omega
        · simp [List.count_erase_of_ne hpq, List.count_cons_of_ne hpq]
      · simp [if_neg hq]
  | createClient q => simp [IPCState.step, wxd_IPCClient_Create]
  | destroyClient oq =>
    rcases oq with _ | q
    · simp [IPCState.step, wxd_IPCClient_Destroy]
    · by_cases hq : q ∈ s.clients <;>
        simp [IPCState.step, wxd_IPCClient_Destroy, hq]
  | cleanupAll =>
    simp [IPCState.step, wxd_IPC_CleanupAll, List.count_append]

theorem step_clientBalance (s : IPCState) (op : IPCOp) (p : Nat)
    (hnd : s.clients.Nodup)
    (hwf : ∀ q, op = .createClient q → q ∉ s.clients) :
    (s.step op).clients.count p + (s.step op).destroyedClients.count p =
      s.clients.count p + s.destroyedClients.count p +
        (if op = .createClient p then 1 else 0) := by
  cases op with
  | createClient q =>
    have hq := hwf q rfl
    simp only [IPCState.step, wxd_IPCClient_Create]
    rw [count_insertPtr p q _ hq]
    by_cases hpq : p = q
    · subst hpq; simp; omega
    · simp [hpq, Ne.symm hpq]
  | destroyClient oq =>
    rcases oq with _ | q
    · simp [IPCState.step, wxd_IPCClient_Destroy]
    · simp only [IPCState.step, wxd_IPCClient_Destroy]
      by_cases hq : q ∈ s.clients
      · simp only [if_pos hq]
        by_cases hpq : p = q
        · subst hpq
          have h1 : s.clients.count p = 1 := List.count_eq_one_of_mem hnd hq
          simp [List.count_erase_self, h1, List.count_cons_self]
          omega
        · simp [List.count_erase_of_ne hpq, List.count_cons_of_ne hpq]
      · simp [if_neg hq]
  | createServer q => simp [IPCState.step, wxd_IPCServer_Create]
  | destroyServer oq =>
    rcases oq with _ | q
    · simp [IPCState.step, wxd_IPCServer_Destroy]
    · by_cases hq : q ∈ s.servers <;>
        simp [IPCState.step, wxd_IPCServer_Destroy, hq]
  | cleanupAll =>
    simp [IPCState.step, wxd_IPC_CleanupAll, List.count_append]

theorem step_registries_nodup (s : IPCState) (op : IPCOp)
    (h1 : s.servers.Nodup) (h2 : s.clients.Nodup) :
    (s.step op).servers.Nodup ∧ (s.step op).clients.Nodup := by
  cases op with
  | createServer q =>
    exact ⟨insertPtr_nodup q _ h1, h2⟩
  | destroyServer oq =>
    rcases oq with _ | q
    · exact ⟨h1, h2⟩
    · by_cases hq : q ∈ s.servers <;>
        simp [IPCState.step, wxd_IPCServer_Destroy, hq, List.Nodup.erase, h1, h2]
  | createClient q =>
    exact ⟨h1, insertPtr_nodup q _ h2⟩
  | destroyClient oq =>
    rcases oq with _ | q
    · exact ⟨h1, h2⟩
    · by_cases hq : q ∈ s.clients <;>
        simp [IPCState.step, wxd_IPCClient_Destroy, hq, List.Nodup.erase, h1, h2]
  | cleanupAll =>
    simp [IPCState.step, wxd_IPC_CleanupAll]

theorem run_registry_invariant (ops : List IPCOp) (s : IPCState)
    (hwf : wfFrom s ops = true) (h1 : s.servers.Nodup) (h2 : s.clients.Nodup) :
    (∀ p, (s.run ops).servers.count p + (s.run ops).destroyedServers.count p =
      s.servers.count p + s.destroyedServers.count p + createdServers ops p) ∧
    (∀ p, (s.run ops).clients.count p + (s.run ops).destroyedClients.count p =
      s.clients.count p + s.destroyedClients.count p + createdClients ops p) ∧
    (s.run ops).servers.Nodup ∧ (s.run ops).clients.Nodup := by
  induction ops generalizing s with
  | nil =>
    simp [IPCState.run, createdServers, createdClients, h1, h2]
  | cons op rest ih =>
    have hrun : s.run (op :: rest) = (s.step op).run rest := rfl
    simp only [wfFrom, Bool.and_eq_true] at hwf
    obtain ⟨hc, hrest⟩ := hwf
    have hcS : ∀ q, op = .createServer q → q ∉ s.servers := by
      intro q hq; subst hq; simpa using hc
    have hcC : ∀ q, op = .createClient q → q ∉ s.clients := by
      intro q hq; subst hq; simpa using hc
    have hnd := step_registries_nodup s op h1 h2
    have ihs := ih (s.step op) hrest hnd.1 hnd.2
    refine ⟨fun p => ?_, fun p => ?_, ihs.2.2.1, ihs.2.2.2⟩
    · rw [hrun, ihs.1 p, step_serverBalance s op p h1 hcS]
      have hcnt : createdServers (op :: rest) p =
          createdServers rest p + (if op = .createServer p then 1 else 0) := by
        simp [createdServers, List.countP_cons]
      rw [hcnt]; omega
    · rw [hrun, ihs.2.1 p, step_clientBalance s op p h2 hcC]
      have hcnt : createdClients (op :: rest) p =
          createdClients rest p + (if op = .createClient p then 1 else 0) := by
        simp [createdClients, List.countP_cons]
      rw [hcnt]; omega

/-- C3: under every interleaving of the five registry-touching entry points
in which the allocator never hands out a currently-live address, the
registries hold exactly the created-and-not-yet-destroyed objects (for each
address, registry occurrences plus delete occurrences equal create
occurrences, and the registries are duplicate-free); `Destroy` on a null
pointer or on a pointer no longer registered is a no-op (double-destroy is
safe); and after `wxd_IPC_CleanupAll` both registries are empty, each
previously live object having been deleted exactly once. -/
theorem wxd_IPC_registry_invariant (ops : List IPCOp)
    (hwf : wfFrom initIPC ops = true) :
    (∀ p, (IPCState.run initIPC ops).servers.count p +
        (IPCState.run initIPC ops).destroyedServers.count p =
        createdServers ops p) ∧
    (∀ p, (IPCState.run initIPC ops).clients.count p +
        (IPCState.run initIPC ops).destroyedClients.count p =
        createdClients ops p) ∧
    (IPCState.run initIPC ops).servers.Nodup ∧
    (IPCState.run initIPC ops).clients.Nodup ∧
    (∀ t : IPCState, ∀ p : Nat,
      wxd_IPCServer_Destroy t none = t ∧
      (p ∉ t.servers → wxd_IPCServer_Destroy t (some p) = t) ∧
      wxd_IPCClient_Destroy t none = t ∧
      (p ∉ t.clients → wxd_IPCClient_Destroy t (some p) = t)) ∧
    ((wxd_IPC_CleanupAll (IPCState.run initIPC ops)).servers = [] ∧
     (wxd_IPC_CleanupAll (IPCState.run initIPC ops)).clients = [] ∧
     (∀ p, p ∈ (IPCState.run initIPC ops).servers →
        (wxd_IPC_CleanupAll (IPCState.run initIPC ops)).destroyedServers.count p =
          (IPCState.run initIPC ops).destroyedServers.count p + 1) ∧
     (∀ p, p ∈ (IPCState.run initIPC ops).clients →
        (wxd_IPC_CleanupAll (IPCState.run initIPC ops)).destroyedClients.count p =
          (IPCState.run initIPC ops).destroyedClients.count p + 1)) := by
  obtain ⟨hb1, hb2, hn1, hn2⟩ :=
    run_registry_invariant ops initIPC hwf (by simp [initIPC]) (by simp [initIPC])
  refine ⟨fun p => by simpa [initIPC] using hb1 p,
          fun p => by simpa [initIPC] using hb2 p,
          hn1, hn2,
          fun t p => ⟨rfl, fun hp => by simp [wxd_IPCServer_Destroy, hp], rfl,
            fun hp => by simp [wxd_IPCClient_Destroy, hp]⟩,
          rfl, rfl, fun p hp => ?_, fun p hp => ?_⟩
  · simp [wxd_IPC_CleanupAll, List.count_append,
      List.count_eq_one_of_mem hn1 hp]
    omega
  · simp [wxd_IPC_CleanupAll, List.count_append,
      List.count_eq_one_of_mem hn2 hp]
    omega

/-- A demonstration interleaving exercising creation, double-destroy,
address reuse after destruction, and final cleanup. -/
def demoOps : List IPCOp :=
  [.createServer 1, .createClient 2, .destroyServer (some 1),
   .destroyServer (some 1), .createServer 1, .createServer 3, .cleanupAll]

theorem wxd_IPC_registry_invariant_witness :
    (IPCState.run initIPC demoOps).servers.count 1 +
      (IPCState.run initIPC demoOps).destroyedServers.count 1 =
      createdServers demoOps 1 :=
  (wxd_IPC_registry_invariant demoOps (by decide)).1 1

end WxDragon
